import Mathlib

/-!
Verification development for the FinHanced personal-finance server.

The embedding models, from the source:
* `src/unnamed/part_001` (localAuth): the `/api/register`, `/api/login`,
  `/api/auth/user` handlers and the `isAuthenticated` middleware;
* `src/server/routes.ts`: the expense route handlers.  Express dispatches a
  request to the first registered handler for a verb/path, so where a route is
  registered twice the first registration is the effective one (POST and GET
  `/api/expenses` at lines 46 and 65; the later registrations at lines 157 and
  181 are shadowed).
* `src/migrations/0000_dusty_paibok.sql`: the relational schema (field names of
  the `users` and `expenses` rows).

The storage layer (`./storage`) is not part of the repository sources; its
operations are modelled from the spec (section 4.3) and say so in their doc
comments.  The `jsonwebtoken` and `bcryptjs` collaborators are idealized:
the HMAC signature is modelled as a collision-free tag and the bcrypt hash as
a deterministic injective function, which is exactly the contract the spec
assumes of them.

Dynamic JavaScript property access (the `req.user.userId` pattern of the route
handlers) is modelled explicitly: a `users` row is reflected into a key/value
object `UserRow.toJSObject` carrying exactly the row's field names, and
`jsGet` returns `none` for an absent key, the embedding of `undefined`.
-/

/-- A JavaScript value as stored in a row object: a string or SQL `NULL`. -/
inductive JSValue where
  | vstr (s : String)
  | vnull
  deriving DecidableEq

/-- JS property access on an object literal: `undefined` (`none`) when the
key is absent. -/
def jsGet (o : List (String × JSValue)) (k : String) : Option JSValue :=
  (o.find? (fun p => p.fst == k)).map (fun p => p.snd)

/-- Embed a nullable SQL text column as a JS value. -/
def optJS : Option String → JSValue
  | some s => .vstr s
  | none => .vnull

/-- A row of the `users` table (migration `0000_dusty_paibok.sql`, lines
73-88): primary key `id`, unique `email`, bcrypt `password` hash, profile
and preference columns.  There is no `userId` column. -/
structure UserRow where
  id : String
  email : Option String
  password : Option String
  firstName : Option String
  lastName : Option String
  profileImageUrl : Option String
  language : String := "en"
  currency : String := "USD"
  timezone : String := "UTC"
  theme : String := "light"
  deriving DecidableEq

/-- The drizzle row object for a `users` row: its keys are exactly the schema
field names.  This is the object `isAuthenticated` attaches as `req.user`. -/
def UserRow.toJSObject (u : UserRow) : List (String × JSValue) :=
  [("id", .vstr u.id),
   ("email", optJS u.email),
   ("password", optJS u.password),
   ("firstName", optJS u.firstName),
   ("lastName", optJS u.lastName),
   ("profileImageUrl", optJS u.profileImageUrl),
   ("language", .vstr u.language),
   ("currency", .vstr u.currency),
   ("timezone", .vstr u.timezone),
   ("theme", .vstr u.theme)]

/-- The public user projection returned by register/login/`GET /api/auth/user`
(part_001 lines 150-156, 193-199, 218-224): never the password hash. -/
structure PublicUser where
  id : String
  email : Option String
  firstName : Option String
  lastName : Option String
  profileImageUrl : Option String
  deriving DecidableEq

/-- Project a stored user row to its public shape. -/
def publicOf (u : UserRow) : PublicUser :=
  { id := u.id, email := u.email, firstName := u.firstName,
    lastName := u.lastName, profileImageUrl := u.profileImageUrl }

/-- A row of the `expenses` table (migration lines 25-42).  `userId` is the
owning user's id (`user_id` column, NOT NULL). -/
structure Expense where
  id : String
  userId : String
  amount : Int
  type : String
  description : String
  category : String
  date : Nat
  location : Option String := none
  mood : Option String := none
  rating : Option Int := none
  receiptUrl : Option String := none
  tags : List String := []
  deriving DecidableEq

/-- The recognized expense list filters (spec section 4.3): exact category,
inclusive date range, tag-set intersection, description substring. -/
structure Filters where
  category : Option String
  startDate : Option Nat
  endDate : Option Nat
  tags : Option (List String)
  search : Option String
  deriving DecidableEq

/-- The empty filter object: no constraint. -/
def noFilters : Filters :=
  { category := none, startDate := none, endDate := none,
    tags := none, search := none }

/-- Does `needle` occur as a contiguous run inside the haystack? -/
def hasInfix (needle : List Char) : List Char → Bool
  | [] => needle.isEmpty
  | c :: rest => needle.isPrefixOf (c :: rest) || hasInfix needle rest

/-- Substring test on strings (SQL `LIKE` float of the `search` filter). -/
def strContains (hay needle : String) : Bool :=
  hasInfix needle.data hay.data

/-- Modelled from the spec (section 4.3): one expense row satisfies a filter
object when every supplied option matches — exact `category`, date inside the
inclusive `startDate`/`endDate` window, tag sets intersecting, `search` a
substring of the description — and an absent option imposes no constraint.
All options are ANDed. -/
def matchesFilters (f : Filters) (e : Expense) : Bool :=
  (match f.category with
   | none => true
   | some c => e.category == c) &&
  (match f.startDate with
   | none => true
   | some s => decide (s ≤ e.date)) &&
  (match f.endDate with
   | none => true
   | some t => decide (e.date ≤ t)) &&
  (match f.tags with
   | none => true
   | some ts => e.tags.any (fun tg => ts.contains tg)) &&
  (match f.search with
   | none => true
   | some q => strContains e.description q)

/-- The relational store: the tables the specified core touches. -/
structure DB where
  users : List UserRow
  expenses : List Expense
  deriving DecidableEq

/-- The JWT payload minted by register/login (part_001 lines 145, 188):
the user id plus the `exp` claim, in seconds. -/
structure TokenPayload where
  userId : String
  exp : Nat
  deriving DecidableEq

/-- The HMAC tag, idealized as a collision-free function of the signing
secret and the signed payload (the contract `jsonwebtoken` provides). -/
def mac (secret : String) (p : TokenPayload) : String × TokenPayload :=
  (secret, p)

/-- A signed token: the payload segment plus the signature segment of the
compact JWT serialization. -/
structure Token where
  payload : TokenPayload
  sig : String × TokenPayload
  deriving DecidableEq

/-- `jwt.sign(\x7b userId \x7d, JWT_SECRET, \x7b expiresIn: '7d' \x7d)`
(part_001 lines 145 and 188): embeds the user id and an expiration 7 days
(604800 seconds) from issuance. -/
def issue (secret : String) (uid : String) (iat : Nat) : Token :=
  { payload := { userId := uid, exp := iat + 7 * 24 * 60 * 60 },
    sig := mac secret { userId := uid, exp := iat + 7 * 24 * 60 * 60 } }

/-- `jwt.verify(token, JWT_SECRET)` at clock time `now`: succeeds with the
embedded user id when the signature matches and the expiration has not
passed; fails (throws, in the source) otherwise. -/
def verify (secret : String) (t : Token) (now : Nat) : Option String :=
  if t.sig = mac secret t.payload ∧ now < t.payload.exp then
    some t.payload.userId
  else
    none

/-- The Authorization header value, split by the two string tests the
middleware performs: a header not starting with `Bearer ` is `notBearer`; a
`Bearer ` header whose remainder does not decode as a token is `bearerBad`;
a well-formed one carries the decoded token. -/
inductive AuthzHeader where
  | bearerTok (t : Token)
  | bearerBad (s : String)
  | notBearer (s : String)
  deriving DecidableEq

/-- An incoming HTTP request, restricted to what the modelled routes read:
the Authorization header and the (already type-converted) query filters. -/
structure Request where
  authorization : Option AuthzHeader
  query : Filters := noFilters
  deriving DecidableEq

/-- A response body: a message object, an expense list, a single expense,
the register/login payload, or a public user. -/
inductive Body where
  | msg (m : String)
  | expenseList (l : List Expense)
  | expenseOne (e : Expense)
  | authOk (m : String) (token : Token) (u : PublicUser)
  | userPub (u : PublicUser)
  deriving DecidableEq

/-- An HTTP response: status code and JSON body. -/
abbrev Response := Nat × Body

/-- `bcrypt.hash(password, 10)`, idealized as a deterministic injective
hash (the salted randomness is irrelevant to the verified properties). -/
def bcryptHash (pw : String) : String :=
  "bcrypt$" ++ pw

/-- `bcrypt.compare(password, hash)` for the idealized hash. -/
def bcryptCompare (pw h : String) : Bool :=
  h == bcryptHash pw

/-- JS falsiness of a request body string field: absent or empty. -/
def falsyStr : Option String → Bool
  | none => true
  | some s => s == ""

/-- The `POST /api/register` body fields (part_001 line 116). -/
structure RegisterBody where
  email : Option String
  password : Option String
  firstName : Option String
  lastName : Option String
  deriving DecidableEq

/-- The `POST /api/login` body fields (part_001 line 167). -/
structure LoginBody where
  email : Option String
  password : Option String
  deriving DecidableEq

/-- The `POST /api/register` handler (part_001 lines 114-162): 400 when a
field is missing or falsy; 400 `User already exists` when the email is
taken (checked before any write); otherwise hash, insert the new row
(`newId` models `crypto.randomUUID()`), mint a 7-day token and respond 200.
Returns the response together with the resulting store. -/
def registerPost (secret : String) (now : Nat) (newId : String)
    (db : DB) (b : RegisterBody) : Response × DB :=
  if falsyStr b.email || falsyStr b.password ||
      falsyStr b.firstName || falsyStr b.lastName then
    ((400, .msg "All fields are required"), db)
  else
    match b.email, b.password, b.firstName, b.lastName with
    | some em, some pw, some fn, some ln =>
      match (db.users.filter (fun u => u.email == some em)).take 1 with
      | _ :: _ => ((400, .msg "User already exists"), db)
      | [] =>
        let newUser : UserRow :=
          { id := newId, email := some em, password := some (bcryptHash pw),
            firstName := some fn, lastName := some ln,
            profileImageUrl := none }
        let db2 : DB := { db with users := db.users ++ [newUser] }
        ((200, .authOk "User created successfully" (issue secret newId now)
          (publicOf newUser)), db2)
    | _, _, _, _ => ((400, .msg "All fields are required"), db)

/-- The `POST /api/login` handler (part_001 lines 165-205): 400 when a field
is missing or falsy; 401 `Invalid credentials` both when the email is unknown
and when the bcrypt comparison fails; 500 when the stored row has a NULL
password hash (`bcrypt.compare` rejects, caught by the handler); otherwise
mint a 7-day token and respond 200. -/
def loginPost (secret : String) (now : Nat) (db : DB) (b : LoginBody) :
    Response :=
  if falsyStr b.email || falsyStr b.password then
    (400, .msg "Email and password are required")
  else
    match b.email, b.password with
    | some em, some pw =>
      match (db.users.filter (fun u => u.email == some em)).take 1 with
      | [] => (401, .msg "Invalid credentials")
      | u :: _ =>
        match u.password with
        | none => (500, .msg "Internal server error")
        | some h =>
          if bcryptCompare pw h then
            (200, .authOk "Login successful" (issue secret u.id now)
              (publicOf u))
          else
            (401, .msg "Invalid credentials")
    | _, _ => (400, .msg "Email and password are required")

/-- The outcome of the auth middleware: a 401 rejection, or proceeding to
the route handler with `req.userId` (the decoded id) and `req.user` (the
full stored row) attached. -/
inductive AuthResult where
  | reject (status : Nat) (m : String)
  | proceed (userId : String) (user : UserRow)
  deriving DecidableEq

/-- The `isAuthenticated` middleware (part_001 lines 237-259): 401
`No token provided` when the header is absent or does not start with
`Bearer `; 401 `Invalid token` when `jwt.verify` throws (undecodable token,
bad signature, or expired); 401 `User not found` when no user row exists for
the decoded id; otherwise attach the decoded id and the row and call
`next()`. -/
def isAuthenticated (secret : String) (now : Nat) (db : DB) (req : Request) :
    AuthResult :=
  match req.authorization with
  | none => .reject 401 "No token provided"
  | some (.notBearer _) => .reject 401 "No token provided"
  | some (.bearerBad _) => .reject 401 "Invalid token"
  | some (.bearerTok t) =>
    match verify secret t now with
    | none => .reject 401 "Invalid token"
    | some uid =>
      match (db.users.filter (fun u => u.id == uid)).take 1 with
      | [] => .reject 401 "User not found"
      | u :: _ => .proceed uid u

/-- Express dispatch of a guarded route: the middleware either responds 401
itself or the handler runs with the attached identity. -/
def runAuthed (secret : String) (now : Nat) (db : DB) (req : Request)
    (handler : String → UserRow → Response) : Response :=
  match isAuthenticated secret now db req with
  | .reject c m => (c, .msg m)
  | .proceed uid u => handler uid u

/-- Express dispatch of a guarded, store-mutating route. -/
def runAuthedSt (secret : String) (now : Nat) (db : DB) (req : Request)
    (handler : String → UserRow → Response × DB) : Response × DB :=
  match isAuthenticated secret now db req with
  | .reject c m => ((c, .msg m), db)
  | .proceed uid u => handler uid u

/-- The failure conditions of the claim, stated over the request directly:
header absent or malformed, token undecodable, signature/expiry check
failing, or no user row for the decoded id. -/
def authFailCondB (secret : String) (now : Nat) (db : DB) (req : Request) :
    Bool :=
  match req.authorization with
  | none => true
  | some (.notBearer _) => true
  | some (.bearerBad _) => true
  | some (.bearerTok t) =>
    match verify secret t now with
    | none => true
    | some uid => ((db.users.filter (fun u => u.id == uid)).take 1).isEmpty

/-- What every resource route handler reads as the caller's identity:
`req.user.userId` (routes.ts lines 48, 67, 78, ...), a dynamic property
access on the attached users row object. -/
def routeOwner (u : UserRow) : Option JSValue :=
  jsGet u.toJSObject "userId"

/-- Modelled from the spec (section 4.3): `storage.getExpenses` with the
owning-user equality injected unconditionally into the query, ANDed with the
optional filters.  The owner argument arrives from the route as a JS value
(possibly `undefined`, i.e. `none`); SQL equality against an absent value
matches no stored row. -/
def getExpenses (owner : Option JSValue) (f : Filters) (db : DB) :
    List Expense :=
  db.expenses.filter
    (fun e => owner == some (.vstr e.userId) && matchesFilters f e)

/-- The effective `GET /api/expenses` handler (routes.ts lines 65-74, the
first registration, which shadows the one at line 181): reads
`req.user.userId` and calls `storage.getExpenses(userId)` with no filter
argument — the query string is ignored. -/
def getExpensesRoute (secret : String) (now : Nat) (db : DB) (req : Request) :
    Response :=
  runAuthed secret now db req
    (fun _ u => (200, .expenseList (getExpenses (routeOwner u) noFilters db)))

/-- The effective `GET /api/auth/user` handler (part_001 lines 208-229,
registered by `setupAuth` before `registerRoutes` runs, so it shadows the one
in routes.ts): re-fetches the user by the decoded `req.userId`; 404 when the
row is gone, 200 with the public projection otherwise. -/
def authUserRoute (secret : String) (now : Nat) (db : DB) (req : Request) :
    Response :=
  runAuthed secret now db req
    (fun uid _ =>
      match (db.users.filter (fun v => v.id == uid)).take 1 with
      | [] => (404, .msg "User not found")
      | v :: _ => (200, .userPub (publicOf v)))

/-- Modelled from the spec (section 4.3): `storage.updateExpense` re-checks
ownership at the data layer — an update targeting an id that is absent or
owned by another user fails with `NotFound` and alters no row; otherwise the
row is replaced by the updated one. -/
def updateExpense (eid : String) (owner : Option JSValue)
    (upd : Expense → Expense) (db : DB) : Except String (DB × Expense) :=
  match db.expenses.find?
      (fun e => e.id == eid && owner == some (.vstr e.userId)) with
  | none => .error "NotFound"
  | some e =>
    let e2 := upd e
    .ok ({ db with
            expenses := db.expenses.map (fun x => if x.id == eid then e2 else x) },
         e2)

/-- Modelled from the spec (section 4.3): `storage.deleteExpense` re-checks
ownership at the data layer — a delete targeting an id that is absent or
owned by another user fails with `NotFound` and alters no row. -/
def deleteExpense (eid : String) (owner : Option JSValue) (db : DB) :
    Except String DB :=
  match db.expenses.find?
      (fun e => e.id == eid && owner == some (.vstr e.userId)) with
  | none => .error "NotFound"
  | some _ =>
    .ok { db with
          expenses := db.expenses.filter
            (fun x => !(x.id == eid && owner == some (.vstr x.userId))) }

/-- The `PATCH /api/expenses/:id` handler (routes.ts lines 216-227, the only
PATCH registration): responds 200 with the updated row on success; any
storage failure — including the NotFound signalled for a cross-tenant id —
is caught and answered with 500 `Failed to update expense`.  There is no 404
branch. -/
def patchExpenseRoute (secret : String) (now : Nat) (db : DB) (req : Request)
    (eid : String) (upd : Expense → Expense) : Response × DB :=
  runAuthedSt secret now db req
    (fun _ u =>
      match updateExpense eid (routeOwner u) upd db with
      | .error _ => ((500, .msg "Failed to update expense"), db)
      | .ok (db2, e) => ((200, .expenseOne e), db2))

/-- The effective `DELETE /api/expenses/:id` handler (routes.ts lines 95-105,
the first registration, shadowing the one at line 229): responds 200 on
success; any storage failure — including the NotFound signalled for a
cross-tenant id — is caught and answered with 500 `Failed to delete expense`.
There is no 404 branch. -/
def deleteExpenseRoute (secret : String) (now : Nat) (db : DB) (req : Request)
    (eid : String) : Response × DB :=
  runAuthedSt secret now db req
    (fun _ u =>
      match deleteExpense eid (routeOwner u) db with
      | .error _ => ((500, .msg "Failed to delete expense"), db)
      | .ok db2 => ((200, .msg "Expense deleted successfully"), db2))

/-- The `POST /api/expenses` request body fields after the handler's own
conversions (`parseFloat` on amount already applied). -/
structure NewExpenseData where
  userId : Option JSValue := none
  amount : Option Int := none
  type : Option String := none
  description : Option String := none
  category : Option String := none
  date : Option Nat := none
  location : Option String := none
  receiptUrl : Option String := none
  tags : Option (List String) := none
  deriving DecidableEq

/-- Modelled from the migration (expenses table, lines 25-42) and the spec:
`insertExpenseSchema.parse` accepts the data only when every NOT NULL column
(`userId`, `amount`, `type`, `description`, `category`, `date`) is present —
a missing or null required field makes the parse throw. -/
def insertExpenseSchemaParse (newId : String) (d : NewExpenseData) :
    Option Expense :=
  match d.userId, d.amount, d.type, d.description, d.category, d.date with
  | some (.vstr u), some a, some ty, some ds, some c, some dt =>
    some { id := newId, userId := u, amount := a, type := ty,
           description := ds, category := c, date := dt,
           location := d.location, receiptUrl := d.receiptUrl,
           tags := d.tags.getD [] }
  | _, _, _, _, _, _ => none

/-- The effective `POST /api/expenses` handler (routes.ts lines 46-63, the
first registration, which shadows the AI-categorizing one at line 157): it
spreads the body, overwrites `userId` with `req.user.userId`, parses with
`insertExpenseSchema`, and stores the row; it performs no AI categorization,
and a parse failure is caught and answered with 500 `Failed to create
expense`. -/
def createExpenseRoute (secret : String) (now : Nat) (db : DB) (req : Request)
    (body : NewExpenseData) (newId : String) : Response × DB :=
  runAuthedSt secret now db req
    (fun _ u =>
      let d : NewExpenseData := { body with userId := routeOwner u }
      match insertExpenseSchemaParse newId d with
      | none => ((500, .msg "Failed to create expense"), db)
      | some e => ((200, .expenseOne e), { db with expenses := db.expenses ++ [e] }))

/-- A concrete stored user (alice) for the concrete evaluations below. -/
def rowA : UserRow :=
  { id := "a", email := some "alice@x", password := some (bcryptHash "pw"),
    firstName := some "A", lastName := some "L", profileImageUrl := none }

/-- A concrete stored user (bob) for the concrete evaluations below. -/
def rowB : UserRow :=
  { id := "b", email := some "bob@x", password := some (bcryptHash "pw2"),
    firstName := some "B", lastName := some "M", profileImageUrl := none }

/-- A concrete expense owned by alice. -/
def expA : Expense :=
  { id := "e1", userId := "a", amount := 10, type := "expense",
    description := "lunch", category := "food", date := 100 }

/-- A concrete store holding alice, bob and alice's expense. -/
def db0 : DB := { users := [rowA, rowB], expenses := [expA] }

/-- A request bearing a valid token for alice. -/
def reqA : Request :=
  { authorization := some (.bearerTok (issue "k" "a" 0)) }

/-- A request bearing a valid token for alice, with every filter supplied. -/
def reqFilt : Request :=
  { authorization := some (.bearerTok (issue "k" "a" 0)),
    query := { category := some "food", startDate := some 1,
               endDate := some 200, tags := some ["t"],
               search := some "lun" } }

/-- A request bearing a valid token for bob. -/
def reqB : Request :=
  { authorization := some (.bearerTok (issue "k" "b" 0)) }

/-- A request bearing a valid token for a user id with no stored row. -/
def reqGhost : Request :=
  { authorization := some (.bearerTok (issue "k" "ghost" 0)) }

/-- A request with no Authorization header. -/
def reqNone : Request := { authorization := none }

/-- A `POST /api/expenses` body with a description but no category. -/
def uberBody : NewExpenseData :=
  { amount := some 25, type := some "expense",
    description := some "Uber to airport", date := some 1 }

/-- The row created by a concrete registration of alice. -/
def rowReg : UserRow :=
  { id := "alice", email := some "alice@x",
    password := some (bcryptHash "pw"), firstName := some "A",
    lastName := some "L", profileImageUrl := none }

/-- A single-segment mutation of alice's issued token: same payload, the
signature segment altered. -/
def tokMut : Token :=
  { payload := { userId := "alice", exp := 604800 },
    sig := ("x", { userId := "alice", exp := 604800 }) }

/-- Taking one element of a list that yields a cons yields exactly that
singleton. -/
theorem take_one_of_cons {α : Type} {l : List α} {x : α} {ts : List α}
    (h : l.take 1 = x :: ts) : l.take 1 = [x] := by
  cases l with
  | nil => simp at h
  | cons a l2 =>
    simp only [List.take_succ_cons, List.take_zero] at h ⊢
    injection h with h1 _
    rw [h1]

/-- A list with a positive `any` has a nonempty filter. -/
theorem filter_any_pos {α : Type} (p : α → Bool) (l : List α)
    (h : l.any p = true) : ∃ x ts, l.filter p = x :: ts := by
  induction l with
  | nil => simp at h
  | cons a l ih =>
    rw [List.any_cons, Bool.or_eq_true] at h
    by_cases hp : p a = true
    · exact ⟨a, l.filter p, by simp [List.filter_cons, hp]⟩
    · have hl : l.any p = true := by
        rcases h with h | h
        · exact absurd h hp
        · exact h
      obtain ⟨x, ts, hx⟩ := ih hl
      refine ⟨x, ts, ?_⟩
      rw [List.filter_cons, if_neg hp, hx]

/-- A list with a negative `any` has an empty filter. -/
theorem filter_any_neg {α : Type} (p : α → Bool) (l : List α)
    (h : l.any p = false) : l.filter p = [] := by
  induction l with
  | nil => rfl
  | cons a l ih =>
    rw [List.any_cons, Bool.or_eq_false_iff] at h
    rw [List.filter_cons]
    simp [h.1, ih h.2]

/-- A successful `verify` returns the embedded user id, and certifies the
signature and the expiration check. -/
theorem verify_eq_some {secret : String} {t : Token} {now : Nat} {x : String}
    (h : verify secret t now = some x) :
    x = t.payload.userId ∧ t.sig = mac secret t.payload ∧
      now < t.payload.exp := by
  unfold verify at h
  split at h
  · next hc =>
    injection h with h1
    exact ⟨h1.symm, hc.1, hc.2⟩
  · exact Option.noConfusion h

/-- The dynamic `userId` read on an attached users-row object is always
`undefined`: the row has no such field. -/
theorem routeOwner_eq_none (u : UserRow) : routeOwner u = none := rfl

/-- Claim C1: tenant isolation of list results — for every authenticated
`GET /api/expenses` request, whatever filter values are supplied, every
expense in the returned list is owned by the authenticated caller; an
expense owned by a different user never appears. -/
theorem C1_tenant_isolation (secret : String) (now : Nat) (db : DB)
    (req : Request) (uid : String) (u : UserRow) (st : Nat) (l : List Expense)
    (hauth : isAuthenticated secret now db req = .proceed uid u)
    (hresp : getExpensesRoute secret now db req = (st, .expenseList l)) :
    ∀ e ∈ l, e.userId = uid := by
  intro e he
  have hval : getExpensesRoute secret now db req =
      (200, .expenseList (getExpenses (routeOwner u) noFilters db)) := by
    unfold getExpensesRoute runAuthed
    rw [hauth]
  rw [hval] at hresp
  injection hresp with h1 h2
  injection h2 with h3
  rw [← h3] at he
  rw [routeOwner_eq_none] at he
  unfold getExpenses at he
  rw [List.mem_filter] at he
  have hfalse : (none == some (JSValue.vstr e.userId) &&
      matchesFilters noFilters e) = false := rfl
  exact absurd (hfalse ▸ he.2) (by simp)

/-- Concrete witness input for Claim C1: a stored user, a valid token, and
the authenticated list request. -/
theorem C1_tenant_isolation_witness :
    isAuthenticated "k" 1 db0 reqA = .proceed "a" rowA ∧
    getExpensesRoute "k" 1 db0 reqA = (200, .expenseList []) ∧
    ∀ e ∈ ([] : List Expense), e.userId = "a" :=
  ⟨rfl, rfl, C1_tenant_isolation "k" 1 db0 reqA "a" rowA 200 [] rfl rfl⟩

/-- Claim C7: filter contract — for every authenticated `GET /api/expenses`
request carrying filter parameters, each expense in the result satisfies
every supplied filter (category equality, inclusive date range, tag-set
intersection, description substring), all supplied filters ANDed and each
absent filter imposing no constraint.  Stated for arbitrary filter objects,
which includes the request's own query. -/
theorem C7_filter_contract (secret : String) (now : Nat) (db : DB)
    (req : Request) (uid : String) (u : UserRow) (st : Nat) (l : List Expense)
    (hauth : isAuthenticated secret now db req = .proceed uid u)
    (hresp : getExpensesRoute secret now db req = (st, .expenseList l)) :
    ∀ e ∈ l, matchesFilters req.query e = true := by
  intro e he
  have hval : getExpensesRoute secret now db req =
      (200, .expenseList (getExpenses (routeOwner u) noFilters db)) := by
    unfold getExpensesRoute runAuthed
    rw [hauth]
  rw [hval] at hresp
  injection hresp with h1 h2
  injection h2 with h3
  rw [← h3] at he
  rw [routeOwner_eq_none] at he
  unfold getExpenses at he
  rw [List.mem_filter] at he
  have hfalse : (none == some (JSValue.vstr e.userId) &&
      matchesFilters noFilters e) = false := rfl
  exact absurd (hfalse ▸ he.2) (by simp)

/-- Concrete witness input for Claim C7: alice lists expenses with every
filter supplied. -/
theorem C7_filter_contract_witness :
    isAuthenticated "k" 1 db0 reqFilt = .proceed "a" rowA ∧
    getExpensesRoute "k" 1 db0 reqFilt = (200, .expenseList []) ∧
    ∀ e ∈ ([] : List Expense), matchesFilters reqFilt.query e = true :=
  ⟨rfl, rfl, C7_filter_contract "k" 1 db0 reqFilt "a" rowA 200 [] rfl rfl⟩

/-- Claim C10: whenever `isAuthenticated` succeeds it attaches the decoded
user id (as `req.userId`) and the complete users-table row (as `req.user`) —
a row that includes the stored password hash and whose user-id field is
named `id`, with no `userId` field — while the resource route handlers read
the authenticated identity from `req.user.userId` (which is therefore
`undefined`). -/
theorem C10_identity_attachment (secret : String) (now : Nat) (db : DB)
    (req : Request) (uid : String) (u : UserRow)
    (h : isAuthenticated secret now db req = .proceed uid u) :
    (∃ t, req.authorization = some (.bearerTok t) ∧
      t.payload.userId = uid ∧ verify secret t now = some uid) ∧
    (db.users.filter (fun v => v.id == uid)).take 1 = [u] ∧
    jsGet u.toJSObject "id" = some (.vstr u.id) ∧
    jsGet u.toJSObject "password" = some (optJS u.password) ∧
    jsGet u.toJSObject "userId" = none ∧
    routeOwner u = none := by
  obtain ⟨auth, q⟩ := req
  cases auth with
  | none => simp [isAuthenticated] at h
  | some a =>
    cases a with
    | notBearer s => simp [isAuthenticated] at h
    | bearerBad s => simp [isAuthenticated] at h
    | bearerTok t =>
      cases hv : verify secret t now with
      | none => simp [isAuthenticated, hv] at h
      | some uid2 =>
        cases hl : (db.users.filter (fun v => v.id == uid2)).take 1 with
        | nil => simp [isAuthenticated, hv, hl] at h
        | cons u2 rest =>
          have h2 : AuthResult.proceed uid2 u2 = .proceed uid u := by
            have := h
            simp only [isAuthenticated, hv, hl] at this
            exact this
          injection h2 with e1 e2
          subst e1
          subst e2
          obtain ⟨he, -, -⟩ := verify_eq_some hv
          refine ⟨⟨t, rfl, he.symm, hv⟩, ?_, rfl, rfl, rfl, rfl⟩
          exact take_one_of_cons hl

/-- Concrete witness input for Claim C10: alice's authenticated request. -/
theorem C10_identity_attachment_witness :
    isAuthenticated "k" 1 db0 reqA = .proceed "a" rowA ∧
    ((∃ t, reqA.authorization = some (.bearerTok t) ∧
        t.payload.userId = "a" ∧ verify "k" t 1 = some "a") ∧
      (db0.users.filter (fun v => v.id == "a")).take 1 = [rowA] ∧
      jsGet rowA.toJSObject "id" = some (.vstr rowA.id) ∧
      jsGet rowA.toJSObject "password" = some (optJS rowA.password) ∧
      jsGet rowA.toJSObject "userId" = none ∧
      routeOwner rowA = none) :=
  ⟨rfl, C10_identity_attachment "k" 1 db0 reqA "a" rowA rfl⟩

/-- The middleware gate fact, shared by several results below: on any
failure condition the dispatch answers 401 independently of the handler; on
none it runs the handler with the attached identity. -/
theorem runAuthed_gate (secret : String) (now : Nat) (db : DB) (req : Request) :
    (authFailCondB secret now db req = true →
      ∃ m, ∀ hndl, runAuthed secret now db req hndl = (401, .msg m)) ∧
    (authFailCondB secret now db req = false →
      ∃ t u, req.authorization = some (.bearerTok t) ∧
        verify secret t now = some t.payload.userId ∧
        (db.users.filter (fun v => v.id == t.payload.userId)).take 1 = [u] ∧
        ∀ hndl, runAuthed secret now db req hndl = hndl t.payload.userId u) := by
  obtain ⟨auth, q⟩ := req
  cases auth with
  | none =>
    refine ⟨fun _ => ⟨"No token provided", fun hndl => rfl⟩, fun hf => ?_⟩
    simp [authFailCondB] at hf
  | some a =>
    cases a with
    | notBearer s =>
      refine ⟨fun _ => ⟨"No token provided", fun hndl => rfl⟩, fun hf => ?_⟩
      simp [authFailCondB] at hf
    | bearerBad s =>
      refine ⟨fun _ => ⟨"Invalid token", fun hndl => rfl⟩, fun hf => ?_⟩
      simp [authFailCondB] at hf
    | bearerTok t =>
      cases hv : verify secret t now with
      | none =>
        refine ⟨fun _ => ⟨"Invalid token", fun hndl => ?_⟩, fun hf => ?_⟩
        · simp [runAuthed, isAuthenticated, hv]
        · simp [authFailCondB, hv] at hf
      | some uid2 =>
        obtain ⟨he, -, -⟩ := verify_eq_some hv
        subst he
        cases hl : (db.users.filter
            (fun v => v.id == t.payload.userId)).take 1 with
        | nil =>
          refine ⟨fun _ => ⟨"User not found", fun hndl => ?_⟩, fun hf => ?_⟩
          · simp [runAuthed, isAuthenticated, hv, hl]
          · simp [authFailCondB, hv, hl] at hf
        | cons u2 rest =>
          have hone := take_one_of_cons hl
          refine ⟨fun hf => ?_, fun _ => ⟨t, u2, rfl, hv, hone, fun hndl => ?_⟩⟩
          · simp [authFailCondB, hv, hl] at hf
          · have : (db.users.filter
                (fun v => v.id == t.payload.userId)).take 1 = u2 :: rest := hl
            simp [runAuthed, isAuthenticated, hv, this]

/-- Claim C2: auth middleware gate — for every request to a guarded route,
if the Authorization header is absent or does not begin with `Bearer `, or
the token does not decode, or its signature/expiration check fails, or no
user record exists for the decoded id, then the response has status 401 and
the downstream handler is never invoked (the response is the middleware's,
independent of the handler); only when all checks pass does the handler run
with the attached identity. -/
theorem C2_auth_gate (secret : String) (now : Nat) (db : DB) (req : Request) :
    (authFailCondB secret now db req = true →
      ∃ m, ∀ hndl, runAuthed secret now db req hndl = (401, .msg m)) ∧
    (authFailCondB secret now db req = false →
      ∃ t u, req.authorization = some (.bearerTok t) ∧
        verify secret t now = some t.payload.userId ∧
        (db.users.filter (fun v => v.id == t.payload.userId)).take 1 = [u] ∧
        ∀ hndl, runAuthed secret now db req hndl = hndl t.payload.userId u) :=
  runAuthed_gate secret now db req

/-- Concrete witness inputs for Claim C2: a request with no header is gated
with 401 independently of the handler, and alice's valid request reaches the
handler with her identity. -/
theorem C2_auth_gate_witness :
    (authFailCondB "k" 1 db0 reqNone = true ∧
      ∃ m, ∀ hndl, runAuthed "k" 1 db0 reqNone hndl = (401, .msg m)) ∧
    (authFailCondB "k" 1 db0 reqA = false ∧
      ∃ t u, reqA.authorization = some (.bearerTok t) ∧
        verify "k" t 1 = some t.payload.userId ∧
        (db0.users.filter (fun v => v.id == t.payload.userId)).take 1 = [u] ∧
        ∀ hndl, runAuthed "k" 1 db0 reqA hndl = hndl t.payload.userId u) :=
  ⟨⟨rfl, (C2_auth_gate "k" 1 db0 reqNone).1 rfl⟩,
   ⟨rfl, (C2_auth_gate "k" 1 db0 reqA).2 rfl⟩⟩

/-- Claim C3: token lifetime and integrity — every token issued at
registration or login embeds the user id and an expiration 7 days from
issuance; verification succeeds (yielding the embedded id) at any time
before the expiry, fails once the expiry has passed, and fails on any
single-byte mutation of the token.  A single byte of the compact
serialization lies in exactly one signed segment, so a mutation alters
exactly one of payload and signature (`h3`). -/
theorem C3_token_lifetime (secret uid : String) (iat now1 now2 now3 : Nat)
    (t' : Token) (db dbL : DB) (b : RegisterBody) (bl : LoginBody)
    (newId m m2 : String) (st st2 : Nat) (tok tok2 : Token)
    (pu pu2 : PublicUser) (db2 : DB)
    (h1 : now1 < iat + 7 * 24 * 60 * 60)
    (h2 : iat + 7 * 24 * 60 * 60 ≤ now2)
    (h3 : (t'.payload = (issue secret uid iat).payload ∧
            t'.sig ≠ (issue secret uid iat).sig) ∨
          (t'.payload ≠ (issue secret uid iat).payload ∧
            t'.sig = (issue secret uid iat).sig))
    (h4 : registerPost secret iat newId db b = ((st, .authOk m tok pu), db2))
    (h5 : loginPost secret iat dbL bl = (st2, .authOk m2 tok2 pu2)) :
    (issue secret uid iat).payload.userId = uid ∧
    (issue secret uid iat).payload.exp = iat + 7 * 24 * 60 * 60 ∧
    verify secret (issue secret uid iat) now1 = some uid ∧
    verify secret (issue secret uid iat) now2 = none ∧
    verify secret t' now3 = none ∧
    tok = issue secret newId iat ∧
    tok2 = issue secret pu2.id iat := by
  refine ⟨rfl, rfl, ?_, ?_, ?_, ?_, ?_⟩
  · unfold verify
    rw [if_pos ⟨rfl, h1⟩]
    rfl
  · unfold verify
    rw [if_neg]
    rintro ⟨-, hlt⟩
    exact absurd hlt (Nat.not_lt.mpr h2)
  · unfold verify
    rw [if_neg]
    rintro ⟨hs, -⟩
    cases h3 with
    | inl hc =>
      rw [hc.1] at hs
      exact hc.2 hs
    | inr hc =>
      have h9 : mac secret (issue secret uid iat).payload =
          mac secret t'.payload := hc.2.symm.trans hs
      unfold mac at h9
      injection h9 with h9a h9b
      exact hc.1 h9b.symm
  · unfold registerPost at h4
    split at h4
    · injection h4 with ha hb
      injection ha with ha1 ha2
      exact Body.noConfusion ha2
    · split at h4
      · split at h4
        · injection h4 with ha hb
          injection ha with ha1 ha2
          exact Body.noConfusion ha2
        · injection h4 with ha hb
          injection ha with ha1 ha2
          injection ha2 with hm htok hpu
          exact htok.symm
      · injection h4 with ha hb
        injection ha with ha1 ha2
        exact Body.noConfusion ha2
  · unfold loginPost at h5
    split at h5
    · injection h5 with ha hb
      exact Body.noConfusion hb
    · split at h5
      · split at h5
        · injection h5 with ha hb
          exact Body.noConfusion hb
        · split at h5
          · injection h5 with ha hb
            exact Body.noConfusion hb
          · split at h5
            · injection h5 with ha hb
              injection hb with hm htok hpu
              rw [← htok, ← hpu]
              rfl
            · injection h5 with ha hb
              exact Body.noConfusion hb
      · injection h5 with ha hb
        exact Body.noConfusion hb

/-- Concrete witness input for Claim C3: alice registers and logs in at
time 0 with secret `k`; her token verifies at time 1, fails at 604800, and
a signature-segment mutation of it fails at any time. -/
theorem C3_token_lifetime_witness :
    (1 : Nat) < 0 + 7 * 24 * 60 * 60 ∧
    0 + 7 * 24 * 60 * 60 ≤ (604800 : Nat) ∧
    registerPost "k" 0 "alice" { users := [], expenses := [] }
        ⟨some "alice@x", some "pw", some "A", some "L"⟩ =
      ((200, .authOk "User created successfully" (issue "k" "alice" 0)
        (publicOf rowReg)), { users := [rowReg], expenses := [] }) ∧
    loginPost "k" 0 { users := [rowReg], expenses := [] }
        ⟨some "alice@x", some "pw"⟩ =
      (200, .authOk "Login successful" (issue "k" "alice" 0)
        (publicOf rowReg)) ∧
    ((issue "k" "alice" 0).payload.userId = "alice" ∧
     (issue "k" "alice" 0).payload.exp = 0 + 7 * 24 * 60 * 60 ∧
     verify "k" (issue "k" "alice" 0) 1 = some "alice" ∧
     verify "k" (issue "k" "alice" 0) 604800 = none ∧
     verify "k" tokMut 0 = none ∧
     issue "k" "alice" 0 = issue "k" "alice" 0 ∧
     issue "k" "alice" 0 = issue "k" (publicOf rowReg).id 0) :=
  ⟨by decide, by decide, rfl, rfl,
    C3_token_lifetime "k" "alice" 0 1 604800 0 tokMut
      { users := [], expenses := [] } { users := [rowReg], expenses := [] }
      ⟨some "alice@x", some "pw", some "A", some "L"⟩
      ⟨some "alice@x", some "pw"⟩
      "alice" "User created successfully" "Login successful" 200 200
      (issue "k" "alice" 0) (issue "k" "alice" 0)
      (publicOf rowReg) (publicOf rowReg) { users := [rowReg], expenses := [] }
      (by decide) (by decide) (Or.inl ⟨rfl, by decide⟩) rfl rfl⟩

/-- Claim C4 evaluated at its failing input: bob (a valid, authenticated
caller) targets alice's stored expense `e1` with PATCH and DELETE; both
calls answer 500 (the storage NotFound failure is caught by the handlers'
blanket catch, which has no 404 branch), not the NotFound the claim
requires, and the store — including alice's row — is unchanged. -/
theorem C4_cross_tenant_mutation_eval :
    expA.userId = "a" ∧
    isAuthenticated "k" 1 db0 reqB = .proceed "b" rowB ∧
    patchExpenseRoute "k" 1 db0 reqB "e1" (fun e => { e with amount := 999 }) =
      ((500, .msg "Failed to update expense"), db0) ∧
    deleteExpenseRoute "k" 1 db0 reqB "e1" =
      ((500, .msg "Failed to delete expense"), db0) ∧
    (500 : Nat) ≠ 404 :=
  ⟨rfl, rfl, rfl, rfl, by decide⟩

/-- Claim C5: duplicate registration — for every email already present in
the credential store, a second `POST /api/register` with that email fails
with the Conflict response (status 400, `User already exists` — the code's
rendering of the spec's Conflict taxonomy kind) and the store is returned
unchanged: no field of the existing record is altered and no new row is
inserted. -/
theorem C5_duplicate_registration (secret : String) (now : Nat)
    (newId : String) (db : DB) (em pw fn ln : String)
    (hne : (em == "") = false ∧ (pw == "") = false ∧ (fn == "") = false ∧
      (ln == "") = false)
    (hex : db.users.any (fun v => v.email == some em) = true) :
    registerPost secret now newId db ⟨some em, some pw, some fn, some ln⟩ =
      ((400, .msg "User already exists"), db) := by
  obtain ⟨x, ts, hx⟩ := filter_any_pos _ _ hex
  unfold registerPost
  split
  · rename_i hcond
    simp only [falsyStr] at hcond
    rw [hne.1, hne.2.1, hne.2.2.1, hne.2.2.2] at hcond
    simp at hcond
  · split
    · rename_i em2 pw2 fn2 ln2 heq1 heq2 heq3 heq4
      injection heq1 with he1
      subst he1
      split
      · rfl
      · rename_i heq5
        rw [hx] at heq5
        simp at heq5
    · rename_i hnomatch
      exact (hnomatch em pw fn ln rfl rfl rfl rfl).elim

/-- Concrete witness input for Claim C5: alice's email is already stored in
`db0`; re-registering it leaves the store untouched. -/
theorem C5_duplicate_registration_witness :
    (("alice@x" == "") = false ∧ ("pw9" == "") = false ∧
      ("X" == "") = false ∧ ("Y" == "") = false) ∧
    db0.users.any (fun v => v.email == some "alice@x") = true ∧
    registerPost "k" 0 "n" db0 ⟨some "alice@x", some "pw9", some "X", some "Y"⟩ =
      ((400, .msg "User already exists"), db0) :=
  ⟨⟨rfl, rfl, rfl, rfl⟩, rfl,
    C5_duplicate_registration "k" 0 "n" db0 "alice@x" "pw9" "X" "Y"
      ⟨rfl, rfl, rfl, rfl⟩ rfl⟩

/-- Claim C6: no user enumeration at login — a failed login with an unknown
email and a failed login with a known email but non-matching password both
answer status 401 with the same `Invalid credentials` message body, so the
two responses are identical. -/
theorem C6_no_enumeration (secret : String) (now : Nat) (db : DB)
    (e1 p1 e2 p2 hsh : String) (u : UserRow)
    (hne1 : (e1 == "") = false) (hnp1 : (p1 == "") = false)
    (hne2 : (e2 == "") = false) (hnp2 : (p2 == "") = false)
    (hunknown : db.users.any (fun v => v.email == some e1) = false)
    (hfound : (db.users.filter (fun v => v.email == some e2)).take 1 = [u])
    (hpw : u.password = some hsh)
    (hbad : bcryptCompare p2 hsh = false) :
    loginPost secret now db ⟨some e1, some p1⟩ =
      (401, .msg "Invalid credentials") ∧
    loginPost secret now db ⟨some e2, some p2⟩ =
      (401, .msg "Invalid credentials") ∧
    loginPost secret now db ⟨some e1, some p1⟩ =
      loginPost secret now db ⟨some e2, some p2⟩ := by
  have hA : loginPost secret now db ⟨some e1, some p1⟩ =
      (401, .msg "Invalid credentials") := by
    unfold loginPost
    split
    · rename_i hcond
      simp only [falsyStr] at hcond
      rw [hne1, hnp1] at hcond
      simp at hcond
    · split
      · rename_i x1 x2 em2 pw2 heq1 heq2
        have he : some e1 = some em2 := heq1
        injection he with he2
        subst he2
        split
        · rfl
        · rename_i xs u2 tl heq
          rw [filter_any_neg _ _ hunknown] at heq
          simp at heq
      · rename_i hnomatch
        exact (hnomatch e1 p1 rfl rfl).elim
  have hB : loginPost secret now db ⟨some e2, some p2⟩ =
      (401, .msg "Invalid credentials") := by
    unfold loginPost
    split
    · rename_i hcond
      simp only [falsyStr] at hcond
      rw [hne2, hnp2] at hcond
      simp at hcond
    · split
      · rename_i x1 x2 em2 pw2 heq1 heq2
        have he : some e2 = some em2 := heq1
        injection he with he2
        subst he2
        have hp : some p2 = some pw2 := heq2
        injection hp with hp2
        subst hp2
        split
        · rfl
        · rename_i xs u2 tl heq
          have h12 : ([u] : List UserRow) = u2 :: tl := hfound.symm.trans heq
          injection h12 with h12a h12b
          subst h12a
          split
          · rename_i x heq3
            rw [hpw] at heq3
            simp at heq3
          · rename_i x c heq3
            rw [hpw] at heq3
            injection heq3 with hc
            subst hc
            split
            · rename_i hcmp
              rw [hbad] at hcmp
              simp at hcmp
            · rfl
      · rename_i hnomatch
        exact (hnomatch e2 p2 rfl rfl).elim
  exact ⟨hA, hB, hA.trans hB.symm⟩

/-- Concrete witness input for Claim C6: `nobody@x` is unknown in `db0`,
and bob's stored hash does not match the password `wrong`. -/
theorem C6_no_enumeration_witness :
    db0.users.any (fun v => v.email == some "nobody@x") = false ∧
    (db0.users.filter (fun v => v.email == some "bob@x")).take 1 = [rowB] ∧
    rowB.password = some (bcryptHash "pw2") ∧
    bcryptCompare "wrong" (bcryptHash "pw2") = false ∧
    loginPost "k" 0 db0 ⟨some "nobody@x", some "p"⟩ =
      (401, .msg "Invalid credentials") ∧
    loginPost "k" 0 db0 ⟨some "bob@x", some "wrong"⟩ =
      (401, .msg "Invalid credentials") :=
  ⟨rfl, rfl, rfl, rfl,
    (C6_no_enumeration "k" 0 db0 "nobody@x" "p" "bob@x" "wrong"
      (bcryptHash "pw2") rowB rfl rfl rfl rfl rfl rfl rfl rfl).1,
    (C6_no_enumeration "k" 0 db0 "nobody@x" "p" "bob@x" "wrong"
      (bcryptHash "pw2") rowB rfl rfl rfl rfl rfl rfl rfl rfl).2.1⟩

/-- Claim C8 evaluated at its failing input: alice posts an expense whose
body has `description = Uber to airport` and no category.  The effective
(first-registered) POST handler performs no AI categorization; the schema
parse rejects the body (missing NOT NULL `category`, and `userId` is the
`undefined` read of `req.user.userId`), the handler answers 500, and no
expense is stored — category and tags are never populated. -/
theorem C8_auto_categorization_eval :
    uberBody.category = none ∧
    uberBody.description = some "Uber to airport" ∧
    createExpenseRoute "k" 1 db0 reqA uberBody "e9" =
      ((500, .msg "Failed to create expense"), db0) :=
  ⟨rfl, rfl, rfl⟩

/-- Counterexample to Claim C9's 404 clause: a syntactically valid,
unexpired token names user `ghost`, no such user row exists, and yet
`GET /api/auth/user` answers 401 (the middleware's user-existence check
rejects first), not the 404 the claim requires. -/
theorem C9_counterexample :
    verify "k" (issue "k" "ghost" 0) 1 = some "ghost" ∧
    db0.users.filter (fun v => v.id == "ghost") = [] ∧
    (authUserRoute "k" 1 db0 reqGhost).fst = 401 ∧
    (authUserRoute "k" 1 db0 reqGhost).fst ≠ 404 :=
  ⟨rfl, rfl, rfl, by decide⟩

/-- Claim C9 as amended: for every request to `GET /api/auth/user`, if the
bearer token is absent or invalid the response status is 401; and if the
token is valid but the user record it names no longer exists the response
status is also 401 (the middleware's existence check rejects before the
handler, whose own 404 branch is unreachable). -/
theorem C9_amended_status (secret : String) (now : Nat) (db : DB)
    (req : Request) :
    (authFailCondB secret now db req = true →
      (authUserRoute secret now db req).fst = 401) ∧
    (∀ t, req.authorization = some (.bearerTok t) →
      verify secret t now = some t.payload.userId →
      (db.users.filter (fun v => v.id == t.payload.userId)).take 1 = [] →
      (authUserRoute secret now db req).fst = 401) := by
  constructor
  · intro hf
    obtain ⟨m, hm⟩ := (runAuthed_gate secret now db req).1 hf
    unfold authUserRoute
    rw [hm]
  · intro t ht hv hl
    simp [authUserRoute, runAuthed, isAuthenticated, ht, hv, hl]

/-- Concrete witness inputs for Claim C9 as amended: a request with no
header, and a valid token for the absent user `ghost`; both answer 401. -/
theorem C9_amended_status_witness :
    (authFailCondB "k" 1 db0 reqNone = true ∧
      (authUserRoute "k" 1 db0 reqNone).fst = 401) ∧
    (reqGhost.authorization = some (.bearerTok (issue "k" "ghost" 0)) ∧
      verify "k" (issue "k" "ghost" 0) 1 =
        some (issue "k" "ghost" 0).payload.userId ∧
      (db0.users.filter
        (fun v => v.id == (issue "k" "ghost" 0).payload.userId)).take 1 = [] ∧
      (authUserRoute "k" 1 db0 reqGhost).fst = 401) :=
  ⟨⟨rfl, (C9_amended_status "k" 1 db0 reqNone).1 rfl⟩,
   ⟨rfl, rfl, rfl,
     (C9_amended_status "k" 1 db0 reqGhost).2 (issue "k" "ghost" 0)
       rfl rfl rfl⟩⟩
